import Mathlib

/-!
Shallow embedding of `src/packages/aptos-wallet-adapter/src/WalletAdapters/PontemWallet.ts`
(the `PontemWalletAdapter` class).

The adapter is a stateful proxy over an injected browser provider
(`window.pontem`).  Its mutable state consists of the ready-state
enumeration, the `connecting` flag and the nullable connection record
(`_wallet`).  Each public async operation is embedded as a pure function
from the adapter state and the (possibly absent) provider behaviour to an
`OpResult`: the post-state, the list of emitted events, the list of
provider methods actually invoked, and the outcome (`Except` models a
JavaScript throw / promise rejection).

JavaScript conventions modelled explicitly:
* `provider?.m()` with an absent provider performs no call and yields
  `undefined` (here: `none`), without throwing;
* a string-or-undefined value is `Option String`; it is truthy iff it is
  `some s` with `s ≠ ""`;
* `x || null` collapses falsy values to `null` (here `none`);
* accessing a property of `undefined` throws a `TypeError`; in particular
  `error.error.message` in the `signAndSubmitTransaction` catch block
  throws when the caught error has no `error` field.
-/

namespace PontemWallet

/-- `WalletReadyState` from `BaseAdapter`. -/
inductive WalletReadyState where
  | Unsupported
  | NotDetected
  | Loadable
  | Installed
  deriving DecidableEq, Repr

/-- The `PontemAccount` interface: the shape stored in `this._wallet`. -/
structure PontemAccount where
  address : String
  publicKey : Option String
  authKey : Option String
  isConnected : Bool
  deriving DecidableEq, Repr

/-- The mutable fields of a `PontemWalletAdapter` instance. -/
structure AdapterState where
  _readyState : WalletReadyState
  _connecting : Bool
  _wallet : Option PontemAccount
  deriving DecidableEq, Repr

/-- JavaScript error values thrown by the adapter or by the provider. -/
inductive JSErr where
  /-- `WalletNotReadyError`. -/
  | walletNotReady
  /-- `WalletNotConnectedError`, with its optional constructor message. -/
  | walletNotConnected (msg : Option String)
  /-- `new Error(msg)`. -/
  | genericError (msg : String)
  /-- A runtime `TypeError` (property access on `undefined`). -/
  | typeError (msg : String)
  /-- An arbitrary error thrown by the provider: its `.message` property
  and, when the provider error carries a nested `.error` object, that
  object's `.message`. -/
  | providerError (msg : Option String) (errorField : Option String)
  deriving DecidableEq, Repr

/-- `error?.message` / `error.message` on a thrown error value. -/
def JSErr.messageOf : JSErr → Option String
  | .walletNotReady => none
  | .walletNotConnected m => m
  | .genericError m => some m
  | .typeError m => some m
  | .providerError m _ => m

/-- `error.error.message` on a thrown error value, as evaluated by the
`signAndSubmitTransaction` catch block.  When the error has no nested
`error` object the access itself throws a `TypeError`. -/
def JSErr.errorMessageOf : JSErr → Except JSErr String
  | .providerError _ (some m) => .ok m
  | _ => .error (.typeError "Cannot read properties of undefined (reading 'message')")

/-- The wrapped error objects passed to `emit('error', ...)`. -/
inductive EmittedErr where
  /-- `new Error('User has rejected the connection')` from the `connect` catch. -/
  | connectionRejected
  /-- `new WalletDisconnectionError(error?.message, error)`. -/
  | disconnectionFailed (msg : Option String)
  /-- `new WalletSignTransactionError(error)`. -/
  | signTransactionFailed (wrapped : JSErr)
  /-- `new WalletSignAndSubmitMessageError(error.error.message)`. -/
  | signAndSubmitFailed (msg : String)
  /-- `new WalletSignMessageError(errMsg)`. -/
  | signMessageFailed (msg : Option String)
  deriving DecidableEq, Repr

/-- Events emitted by the adapter. -/
inductive Event where
  | connectE (address : String)
  | disconnectE
  | errorE (e : EmittedErr)
  | readyStateChangeE (st : WalletReadyState)
  deriving DecidableEq, Repr

/-- The provider methods the adapter can invoke; used to record which
provider operations a call actually performs. -/
inductive ProviderCall where
  | isConnectedC
  | disconnectC
  | connectC
  | accountC
  | publicKeyC
  | signTransactionC
  | signAndSubmitC
  | signMessageC
  deriving DecidableEq, Repr

/-- The `ConnectPontemAccount` response shape of `provider.connect()`. -/
structure ConnectPontemAccount where
  address : String
  method : String
  publicKey : String
  status : Nat
  deriving DecidableEq, Repr

/-- Response shape of `provider.signAndSubmit()`. -/
structure SignSubmitResponse where
  success : Bool
  hash : String
  deriving DecidableEq, Repr

/-- Response shape of `provider.signMessage()`. -/
structure SignMessageResponse where
  success : Bool
  hexString : String
  deriving DecidableEq, Repr

/-- Behaviour of the injected `IPontemWallet` provider for one adapter
operation: the outcome of each method the adapter may call.  `Except`
models a rejected promise; an `Option` result models a possibly
nullish/falsy resolved value. -/
structure IPontemWallet where
  isConnectedR : Except JSErr Bool
  disconnectR : Except JSErr Unit
  connectR : Except JSErr (Option ConnectPontemAccount)
  accountR : Except JSErr (Option String)
  publicKeyR : Except JSErr (Option String)
  signTransactionR : String → Except JSErr (List Nat)
  signAndSubmitR : String → Except JSErr (Option SignSubmitResponse)
  signMessageR : String → Except JSErr SignMessageResponse

/-- Result of one public adapter operation: post-state, emitted events (in
order), provider methods invoked (in order), and outcome. -/
structure OpResult (α : Type) where
  state : AdapterState
  events : List Event
  calls : List ProviderCall
  result : Except JSErr α

/-- JavaScript truthiness of a string-or-undefined value. -/
def strTruthy : Option String → Bool
  | none => false
  | some a => a != ""

/-- `x || null` on a string-or-undefined value. -/
def jsStringOrNull : Option String → Option String
  | none => none
  | some a => if a = "" then none else some a

/-- The `AccountKeys` shape returned by the `publicAccount` accessor. -/
structure AccountKeys where
  publicKey : Option String
  address : Option String
  authKey : Option String
  deriving DecidableEq, Repr

/-- The `publicAccount` accessor:
`{ publicKey: this._wallet?.publicKey || null, address: ..., authKey: ... }`. -/
def publicAccount (s : AdapterState) : AccountKeys :=
  { publicKey := jsStringOrNull (s._wallet.bind PontemAccount.publicKey)
    address := jsStringOrNull (s._wallet.map PontemAccount.address)
    authKey := jsStringOrNull (s._wallet.bind PontemAccount.authKey) }

/-- The `connecting` accessor. -/
def connecting (s : AdapterState) : Bool := s._connecting

/-- The `connected` accessor: `!!this._wallet?.isConnected`. -/
def connected (s : AdapterState) : Bool :=
  match s._wallet with
  | some w => w.isConnected
  | none => false

/-- The `readyState` accessor. -/
def readyState (s : AdapterState) : WalletReadyState := s._readyState

/-- Adapter state right after the constructor ran: `_connecting = false`,
`_wallet = null`, and `_readyState` is `Unsupported` outside a browser
context, `NotDetected` otherwise. -/
def initialState (browser : Bool) : AdapterState :=
  { _readyState := if browser then .NotDetected else .Unsupported
    _connecting := false
    _wallet := none }

/-- The `connect` catch/finally tail: `emit('error', new Error('User has
rejected the connection'))`, rethrow the original error, and clear the
`_connecting` flag. -/
def connectCatch (s : AdapterState) (calls : List ProviderCall) (e : JSErr) :
    OpResult Unit :=
  { state := { s with _connecting := false }
    events := [.errorE .connectionRejected]
    calls := calls
    result := .error e }

/-- The tail of the `connect` body after a successful
`provider?.account()` / `provider?.publicKey()` pair: populate `_wallet`
when the fetched address is truthy, emit `connect` with
`this._wallet?.address || ''`, and clear `_connecting` (finally block). -/
def connectFinish (s : AdapterState) (wa pk : Option String)
    (calls : List ProviderCall) : OpResult Unit :=
  let wallet : Option PontemAccount :=
    if strTruthy wa then
      some { address := wa.getD "", publicKey := pk, authKey := none, isConnected := true }
    else s._wallet
  { state := { s with _wallet := wallet, _connecting := false }
    events := [.connectE ((wallet.map PontemAccount.address).getD "")]
    calls := calls
    result := .ok () }

/-- The `connect` body from `provider?.connect()` onward: a nullish
response throws `WalletNotConnectedError('No connect response')`;
otherwise the address and public key are fetched. -/
def connectAfterSession (s : AdapterState) (pr : IPontemWallet)
    (calls : List ProviderCall) : OpResult Unit :=
  match pr.connectR with
  | .error e => connectCatch s (calls ++ [.connectC]) e
  | .ok none =>
      connectCatch s (calls ++ [.connectC]) (.walletNotConnected (some "No connect response"))
  | .ok (some _) =>
    match pr.accountR with
    | .error e => connectCatch s (calls ++ [.connectC, .accountC]) e
    | .ok wa =>
      match pr.publicKeyR with
      | .error e => connectCatch s (calls ++ [.connectC, .accountC, .publicKeyC]) e
      | .ok pk => connectFinish s wa pk (calls ++ [.connectC, .accountC, .publicKeyC])

/-- The `connect` body once a provider object is present: query
`isConnected()`, disconnect an existing session first, then proceed.  A
throw from any provider call falls through to the catch block. -/
def connectWithProvider (s : AdapterState) (pr : IPontemWallet) : OpResult Unit :=
  match pr.isConnectedR with
  | .error e => connectCatch s [.isConnectedC] e
  | .ok ic =>
    if ic then
      match pr.disconnectR with
      | .error e => connectCatch s [.isConnectedC, .disconnectC] e
      | .ok _ => connectAfterSession s pr [.isConnectedC, .disconnectC]
    else connectAfterSession s pr [.isConnectedC]

/-- `PontemWalletAdapter.connect()`.  `provider` is the resolved
`this._provider || window.pontem` value (`none` when both are absent; the
optional-chained calls then yield `undefined` without being invoked).
Note that the `finally` block clears `_connecting` even on the early
return. -/
def connect (s : AdapterState) (provider : Option IPontemWallet) : OpResult Unit :=
  if connected s || s._connecting then
    { state := { s with _connecting := false }, events := [], calls := [], result := .ok () }
  else if s._readyState = .Loadable ∨ s._readyState = .Installed then
    match provider with
    | none => connectCatch s [] (.walletNotConnected (some "No connect response"))
    | some pr => connectWithProvider s pr
  else
    connectCatch s [] .walletNotReady

/-- `PontemWalletAdapter.disconnect()`: when a record exists it is cleared
first, then the provider disconnect is attempted; a throw there is caught
and reported as a `WalletDisconnectionError` via an `error` event.  A
`disconnect` event is always emitted and the promise always resolves. -/
def disconnect (s : AdapterState) (provider : Option IPontemWallet) : OpResult Unit :=
  match s._wallet with
  | none => { state := s, events := [.disconnectE], calls := [], result := .ok () }
  | some _ =>
    match provider with
    | none =>
        { state := { s with _wallet := none }, events := [.disconnectE], calls := []
          result := .ok () }
    | some pr =>
      match pr.disconnectR with
      | .ok _ =>
          { state := { s with _wallet := none }, events := [.disconnectE]
            calls := [.disconnectC], result := .ok () }
      | .error e =>
          { state := { s with _wallet := none }
            events := [.errorE (.disconnectionFailed e.messageOf), .disconnectE]
            calls := [.disconnectC], result := .ok () }

/-- `PontemWalletAdapter.signTransaction(payload, options?)`: fails with
`WalletNotConnectedError` when `_wallet` or the provider is absent; any
failure is wrapped in a `WalletSignTransactionError` `error` event and
rethrown. -/
def signTransaction (s : AdapterState) (provider : Option IPontemWallet)
    (payload : String) : OpResult (List Nat) :=
  match s._wallet, provider with
  | none, _ =>
      { state := s, events := [.errorE (.signTransactionFailed (.walletNotConnected none))]
        calls := [], result := .error (.walletNotConnected none) }
  | some _, none =>
      { state := s, events := [.errorE (.signTransactionFailed (.walletNotConnected none))]
        calls := [], result := .error (.walletNotConnected none) }
  | some _, some pr =>
    match pr.signTransactionR payload with
    | .ok bytes =>
        { state := s, events := [], calls := [.signTransactionC], result := .ok bytes }
    | .error e =>
        { state := s, events := [.errorE (.signTransactionFailed e)]
          calls := [.signTransactionC], result := .error e }

/-- The `signAndSubmitTransaction` catch block: it evaluates
`error.error.message` before emitting, so a caught error without a nested
`error` object makes the handler itself throw a `TypeError` and no
`error` event is emitted. -/
def signAndSubmitCatch (s : AdapterState) (calls : List ProviderCall) (e : JSErr) :
    OpResult String :=
  match e.errorMessageOf with
  | .ok m =>
      { state := s, events := [.errorE (.signAndSubmitFailed m)], calls := calls
        result := .error e }
  | .error te => { state := s, events := [], calls := calls, result := .error te }

/-- `PontemWalletAdapter.signAndSubmitTransaction(payload, options?)`:
a nullish response or `success: false` throws `new Error('No response')`;
on success only the transaction hash is returned. -/
def signAndSubmitTransaction (s : AdapterState) (provider : Option IPontemWallet)
    (payload : String) : OpResult String :=
  match s._wallet, provider with
  | none, _ => signAndSubmitCatch s [] (.walletNotConnected none)
  | some _, none => signAndSubmitCatch s [] (.walletNotConnected none)
  | some _, some pr =>
    match pr.signAndSubmitR payload with
    | .error e => signAndSubmitCatch s [.signAndSubmitC] e
    | .ok none => signAndSubmitCatch s [.signAndSubmitC] (.genericError "No response")
    | .ok (some resp) =>
      if resp.success then
        { state := s, events := [], calls := [.signAndSubmitC], result := .ok resp.hash }
      else signAndSubmitCatch s [.signAndSubmitC] (.genericError "No response")

/-- `PontemWalletAdapter.signMessage(message)`: on `success: true` returns
the nested `hexString`; on `success: false` throws
`new Error('Sign Message failed')`; every failure is reported via a
`WalletSignMessageError(error.message)` `error` event and rethrown. -/
def signMessage (s : AdapterState) (provider : Option IPontemWallet)
    (message : String) : OpResult String :=
  match s._wallet, provider with
  | none, _ =>
      { state := s
        events := [.errorE (.signMessageFailed (JSErr.messageOf (.walletNotConnected none)))]
        calls := [], result := .error (.walletNotConnected none) }
  | some _, none =>
      { state := s
        events := [.errorE (.signMessageFailed (JSErr.messageOf (.walletNotConnected none)))]
        calls := [], result := .error (.walletNotConnected none) }
  | some _, some pr =>
    match pr.signMessageR message with
    | .error e =>
        { state := s, events := [.errorE (.signMessageFailed e.messageOf)]
          calls := [.signMessageC], result := .error e }
    | .ok resp =>
      if resp.success then
        { state := s, events := [], calls := [.signMessageC], result := .ok resp.hexString }
      else
        { state := s
          events := [.errorE (.signMessageFailed (some "Sign Message failed"))]
          calls := [.signMessageC], result := .error (.genericError "Sign Message failed") }

/-- States reachable from a freshly constructed adapter through the public
operations and the polling detection callback (which sets `_readyState`
to `Installed` and emits `readyStateChange`). -/
inductive Reachable : AdapterState → Prop where
  | init (browser : Bool) : Reachable (initialState browser)
  | detect {s : AdapterState} : Reachable s → Reachable { s with _readyState := .Installed }
  | connectStep {s : AdapterState} (p : Option IPontemWallet) :
      Reachable s → Reachable (connect s p).state
  | disconnectStep {s : AdapterState} (p : Option IPontemWallet) :
      Reachable s → Reachable (disconnect s p).state
  | signTransactionStep {s : AdapterState} (p : Option IPontemWallet) (payload : String) :
      Reachable s → Reachable (signTransaction s p payload).state
  | signAndSubmitStep {s : AdapterState} (p : Option IPontemWallet) (payload : String) :
      Reachable s → Reachable (signAndSubmitTransaction s p payload).state
  | signMessageStep {s : AdapterState} (p : Option IPontemWallet) (message : String) :
      Reachable s → Reachable (signMessage s p message).state

/-- Every populated connection record was written by `connect`, which
always sets `isConnected: true` and never sets `authKey`. -/
def WalletWellFormed (s : AdapterState) : Prop :=
  ∀ w, s._wallet = some w → w.isConnected = true ∧ w.authKey = none

/-- The record / `connected` agreement stated by the spec invariant, as a
predicate on a single state. -/
def RecordMatchesConnected (s : AdapterState) : Prop :=
  s._wallet.isSome ↔ connected s = true

/-- Number of `disconnect` events in an event trace. -/
def countDisconnectEvents (evs : List Event) : Nat :=
  evs.countP (fun ev => decide (ev = Event.disconnectE))

/-- A sample populated connection record, as `connect` would build it. -/
def sampleAccount : PontemAccount :=
  { address := "0xA", publicKey := some "0xB", authKey := none, isConnected := true }

/-- A detected, idle, disconnected adapter state. -/
def stInstalled : AdapterState :=
  { _readyState := .Installed, _connecting := false, _wallet := none }

/-- A detected, idle, connected adapter state. -/
def stConnected : AdapterState :=
  { _readyState := .Installed, _connecting := false, _wallet := some sampleAccount }

/-- A sample `provider.connect()` response. -/
def okResponse : ConnectPontemAccount :=
  { address := "0xA", method := "connect", publicKey := "0xB", status := 200 }

/-- A provider for which every method succeeds. -/
def baseProvider : IPontemWallet :=
  { isConnectedR := .ok false
    disconnectR := .ok ()
    connectR := .ok (some okResponse)
    accountR := .ok (some "0xA")
    publicKeyR := .ok (some "0xB")
    signTransactionR := fun _ => .ok [1, 2, 3]
    signAndSubmitR := fun _ => .ok (some { success := true, hash := "0xhash" })
    signMessageR := fun _ => .ok { success := true, hexString := "0xdead" } }

/-- A provider that reports an existing session and whose `disconnect()`
rejects. -/
def staleSessionFailingProvider : IPontemWallet :=
  { baseProvider with
      isConnectedR := .ok true
      disconnectR := .error (.providerError (some "disconnect failed") none) }

/-- A provider whose `signAndSubmit()` resolves to `{ success: false }`. -/
def submitRejectingProvider : IPontemWallet :=
  { baseProvider with signAndSubmitR := fun _ => .ok (some { success := false, hash := "" }) }

/-- A provider whose `account()` resolves to `undefined`. -/
def emptyAccountProvider : IPontemWallet :=
  { baseProvider with accountR := .ok none }

/-- A provider whose `signMessage()` resolves to `{ success: false }`. -/
def signMessageRejectingProvider : IPontemWallet :=
  { baseProvider with signMessageR := fun _ => .ok { success := false, hexString := "" } }

/-- A provider whose `disconnect()` rejects. -/
def disconnectFailingProvider : IPontemWallet :=
  { baseProvider with disconnectR := .error (.providerError (some "boom") none) }

theorem connectFinish_wallet_cases (s : AdapterState) (wa pk : Option String)
    (calls : List ProviderCall) :
    (connectFinish s wa pk calls).state._wallet = s._wallet ∨
    ∃ a pk2, (connectFinish s wa pk calls).state._wallet =
      some { address := a, publicKey := pk2, authKey := none, isConnected := true } := by
  unfold connectFinish
  by_cases h : strTruthy wa
  · exact Or.inr ⟨wa.getD "", pk, by simp [h]⟩
  · exact Or.inl (by simp [h])

theorem connectAfterSession_wallet_cases (s : AdapterState) (pr : IPontemWallet)
    (calls : List ProviderCall) :
    (connectAfterSession s pr calls).state._wallet = s._wallet ∨
    ∃ a pk2, (connectAfterSession s pr calls).state._wallet =
      some { address := a, publicKey := pk2, authKey := none, isConnected := true } := by
  unfold connectAfterSession
  split
  · exact Or.inl rfl
  · exact Or.inl rfl
  · split
    · exact Or.inl rfl
    · split
      · exact Or.inl rfl
      · exact connectFinish_wallet_cases _ _ _ _

theorem connectWithProvider_wallet_cases (s : AdapterState) (pr : IPontemWallet) :
    (connectWithProvider s pr).state._wallet = s._wallet ∨
    ∃ a pk2, (connectWithProvider s pr).state._wallet =
      some { address := a, publicKey := pk2, authKey := none, isConnected := true } := by
  unfold connectWithProvider
  split
  · exact Or.inl rfl
  · split
    · split
      · exact Or.inl rfl
      · exact connectAfterSession_wallet_cases _ _ _
    · exact connectAfterSession_wallet_cases _ _ _

theorem connect_wallet_cases (s : AdapterState) (p : Option IPontemWallet) :
    (connect s p).state._wallet = s._wallet ∨
    ∃ a pk2, (connect s p).state._wallet =
      some { address := a, publicKey := pk2, authKey := none, isConnected := true } := by
  unfold connect
  split
  · exact Or.inl rfl
  · split
    · split
      · exact Or.inl rfl
      · exact connectWithProvider_wallet_cases _ _
    · exact Or.inl rfl

theorem disconnect_wallet (s : AdapterState) (p : Option IPontemWallet) :
    (disconnect s p).state._wallet = none := by
  unfold disconnect
  split
  · rename_i h
    exact h
  · split
    · rfl
    · split <;> rfl

theorem signTransaction_state (s : AdapterState) (p : Option IPontemWallet)
    (payload : String) : (signTransaction s p payload).state = s := by
  unfold signTransaction
  split
  · rfl
  · rfl
  · split <;> rfl

theorem signAndSubmitCatch_state (s : AdapterState) (calls : List ProviderCall)
    (e : JSErr) : (signAndSubmitCatch s calls e).state = s := by
  unfold signAndSubmitCatch
  split <;> rfl

theorem signAndSubmitTransaction_state (s : AdapterState) (p : Option IPontemWallet)
    (payload : String) : (signAndSubmitTransaction s p payload).state = s := by
  unfold signAndSubmitTransaction
  split
  · exact signAndSubmitCatch_state _ _ _
  · exact signAndSubmitCatch_state _ _ _
  · split
    · exact signAndSubmitCatch_state _ _ _
    · exact signAndSubmitCatch_state _ _ _
    · split
      · rfl
      · exact signAndSubmitCatch_state _ _ _

theorem signMessage_state (s : AdapterState) (p : Option IPontemWallet)
    (message : String) : (signMessage s p message).state = s := by
  unfold signMessage
  split
  · rfl
  · rfl
  · split
    · rfl
    · split <;> rfl

/-- Every reachable state has a well-formed (connect-written) record. -/
theorem reachable_wellFormed (s : AdapterState) (h : Reachable s) :
    WalletWellFormed s := by
  induction h with
  | init browser =>
      intro w hw
      simp [initialState] at hw
  | detect _ ih =>
      intro w hw
      exact ih w hw
  | connectStep p _ ih =>
      intro w hw
      rcases connect_wallet_cases _ p with hc | ⟨a, pk2, hc⟩
      · exact ih w (by rw [← hc]; exact hw)
      · rw [hc] at hw
        injection hw with hw2
        subst hw2
        exact ⟨rfl, rfl⟩
  | disconnectStep p _ ih =>
      intro w hw
      rw [disconnect_wallet] at hw
      exact Option.noConfusion hw
  | signTransactionStep p payload _ ih =>
      intro w hw
      rw [signTransaction_state] at hw
      exact ih w hw
  | signAndSubmitStep p payload _ ih =>
      intro w hw
      rw [signAndSubmitTransaction_state] at hw
      exact ih w hw
  | signMessageStep p message _ ih =>
      intro w hw
      rw [signMessage_state] at hw
      exact ih w hw

theorem recordMatches_congr {s1 s2 : AdapterState} (h : s2._wallet = s1._wallet)
    (hm : RecordMatchesConnected s1) : RecordMatchesConnected s2 := by
  unfold RecordMatchesConnected connected at *
  rw [h]
  exact hm

theorem recordMatches_none {s : AdapterState} (h : s._wallet = none) :
    RecordMatchesConnected s := by
  unfold RecordMatchesConnected connected
  rw [h]
  simp

theorem recordMatches_of_connectRecord {s : AdapterState} {a : String}
    {pk : Option String}
    (h : s._wallet = some { address := a, publicKey := pk, authKey := none, isConnected := true }) :
    RecordMatchesConnected s := by
  unfold RecordMatchesConnected connected
  rw [h]
  simp

/-- Claim C1: in every reachable state of the adapter, the connection
record `_wallet` is present if and only if the `connected` accessor
returns `true`, and each of the five public operations (`connect`,
`disconnect`, `signTransaction`, `signAndSubmitTransaction`,
`signMessage`) preserves this equivalence. -/
theorem record_present_iff_connected :
    (∀ s, Reachable s → RecordMatchesConnected s) ∧
    (∀ s (p : Option IPontemWallet) (payload message : String),
      RecordMatchesConnected s →
      RecordMatchesConnected (connect s p).state ∧
      RecordMatchesConnected (disconnect s p).state ∧
      RecordMatchesConnected (signTransaction s p payload).state ∧
      RecordMatchesConnected (signAndSubmitTransaction s p payload).state ∧
      RecordMatchesConnected (signMessage s p message).state) := by
  have hpres : ∀ s (p : Option IPontemWallet) (payload message : String),
      RecordMatchesConnected s →
      RecordMatchesConnected (connect s p).state ∧
      RecordMatchesConnected (disconnect s p).state ∧
      RecordMatchesConnected (signTransaction s p payload).state ∧
      RecordMatchesConnected (signAndSubmitTransaction s p payload).state ∧
      RecordMatchesConnected (signMessage s p message).state := by
    intro s p payload message hm
    refine ⟨?_, ?_, ?_, ?_, ?_⟩
    · rcases connect_wallet_cases s p with hc | ⟨a, pk2, hc⟩
      · exact recordMatches_congr hc hm
      · exact recordMatches_of_connectRecord hc
    · exact recordMatches_none (disconnect_wallet s p)
    · exact recordMatches_congr (by rw [signTransaction_state]) hm
    · exact recordMatches_congr (by rw [signAndSubmitTransaction_state]) hm
    · exact recordMatches_congr (by rw [signMessage_state]) hm
  refine ⟨?_, hpres⟩
  intro s h
  induction h with
  | init browser => exact recordMatches_none rfl
  | detect _ ih => exact recordMatches_congr rfl ih
  | connectStep p _ ih => exact (hpres _ p "" "" ih).1
  | disconnectStep p _ ih => exact (hpres _ p "" "" ih).2.1
  | signTransactionStep p payload _ ih => exact (hpres _ p payload "" ih).2.2.1
  | signAndSubmitStep p payload _ ih => exact (hpres _ p payload "" ih).2.2.2.1
  | signMessageStep p message _ ih => exact (hpres _ p "" message ih).2.2.2.2

/-- Witness for C1 at a concrete reachable state and a concrete step. -/
theorem record_present_iff_connected_witness :
    RecordMatchesConnected (initialState true) ∧
    RecordMatchesConnected (connect stInstalled (some baseProvider)).state :=
  ⟨record_present_iff_connected.1 (initialState true) (Reachable.init true),
   (record_present_iff_connected.2 stInstalled (some baseProvider) "" ""
      (recordMatches_none rfl)).1⟩

/-- Claim C4: when `_readyState` is neither `Loadable` nor `Installed`
and the adapter is neither connected nor connecting, `connect()` rejects
with `WalletNotReadyError`, performs no provider call, and leaves the
connection record unchanged (it also emits the generic connect-rejection
`error` event from the catch block). -/
theorem connect_notReady (s : AdapterState) (p : Option IPontemWallet)
    (h1 : s._readyState ≠ .Loadable) (h2 : s._readyState ≠ .Installed)
    (h3 : connected s = false) (h4 : s._connecting = false) :
    (connect s p).result = .error .walletNotReady ∧
    (connect s p).calls = [] ∧
    (connect s p).state._wallet = s._wallet ∧
    (connect s p).events = [.errorE .connectionRejected] := by
  have hc : (connected s || s._connecting) = false := by simp [h3, h4]
  have hr : ¬(s._readyState = .Loadable ∨ s._readyState = .Installed) := by
    simp [h1, h2]
  simp [connect, hc, hr, connectCatch]

/-- Witness for C4: a freshly constructed adapter in a browser context
(`NotDetected`). -/
theorem connect_notReady_witness :
    (connect (initialState true) (some baseProvider)).result = .error .walletNotReady ∧
    (connect (initialState true) (some baseProvider)).calls = [] ∧
    (connect (initialState true) (some baseProvider)).state._wallet =
      (initialState true)._wallet ∧
    (connect (initialState true) (some baseProvider)).events =
      [.errorE .connectionRejected] :=
  connect_notReady (initialState true) (some baseProvider)
    (by decide) (by decide) (by decide) (by decide)

/-- Claim C6: when the adapter is already connected, or a connection
attempt is in flight, `connect()` resolves immediately without any
provider call, without events, and without touching `_wallet` or
`_readyState`. -/
theorem connect_shortCircuit (s : AdapterState) (p : Option IPontemWallet)
    (h : connected s = true ∨ s._connecting = true) :
    (connect s p).calls = [] ∧
    (connect s p).events = [] ∧
    (connect s p).result = .ok () ∧
    (connect s p).state._wallet = s._wallet ∧
    (connect s p).state._readyState = s._readyState := by
  have hc : (connected s || s._connecting) = true := by
    rcases h with h | h <;> simp [h]
  simp [connect, hc]

/-- Witness for C6: a second `connect` on an already connected adapter. -/
theorem connect_shortCircuit_witness :
    (connect stConnected (some baseProvider)).calls = [] ∧
    (connect stConnected (some baseProvider)).events = [] ∧
    (connect stConnected (some baseProvider)).result = .ok () ∧
    (connect stConnected (some baseProvider)).state._wallet = stConnected._wallet ∧
    (connect stConnected (some baseProvider)).state._readyState =
      stConnected._readyState :=
  connect_shortCircuit stConnected (some baseProvider) (Or.inl (by decide))

/-- Counterexample to C2 as stated: with a detected, disconnected adapter
and a provider that reports an existing session and whose `disconnect()`
rejects, the failure is not swallowed — `provider.connect()` is never
invoked and `connect()` rejects with the provider's disconnect error. -/
theorem connect_staleDisconnect_cex :
    ProviderCall.connectC ∉ (connect stInstalled (some staleSessionFailingProvider)).calls ∧
    (connect stInstalled (some staleSessionFailingProvider)).result =
      .error (.providerError (some "disconnect failed") none) := by
  constructor
  · decide
  · rfl

/-- Claim C2 (amended): during `connect()`, an existing provider session
is disconnected before connecting, but a failure of that provider
disconnect call is not swallowed — it falls through to the catch block,
so `connect()` emits the generic connect-rejection `error` event, rejects
with the disconnect error, never invokes `provider.connect()`, and leaves
the connection record unchanged. -/
theorem connect_staleDisconnectFailure (s : AdapterState) (pr : IPontemWallet)
    (e : JSErr)
    (h1 : connected s = false) (h2 : s._connecting = false)
    (h3 : s._readyState = .Loadable ∨ s._readyState = .Installed)
    (h4 : pr.isConnectedR = .ok true) (h5 : pr.disconnectR = .error e) :
    (connect s (some pr)).result = .error e ∧
    (connect s (some pr)).calls = [.isConnectedC, .disconnectC] ∧
    (connect s (some pr)).events = [.errorE .connectionRejected] ∧
    (connect s (some pr)).state._wallet = s._wallet := by
  have hc : (connected s || s._connecting) = false := by simp [h1, h2]
  unfold connect
  rw [hc]
  simp only [Bool.false_eq_true, if_false]
  rw [if_pos h3]
  simp [connectWithProvider, h4, h5, connectCatch]

/-- Witness for the amended C2 at concrete inputs. -/
theorem connect_staleDisconnectFailure_witness :
    (connect stInstalled (some staleSessionFailingProvider)).result =
      .error (.providerError (some "disconnect failed") none) ∧
    (connect stInstalled (some staleSessionFailingProvider)).calls =
      [.isConnectedC, .disconnectC] ∧
    (connect stInstalled (some staleSessionFailingProvider)).events =
      [.errorE .connectionRejected] ∧
    (connect stInstalled (some staleSessionFailingProvider)).state._wallet =
      stInstalled._wallet :=
  connect_staleDisconnectFailure stInstalled staleSessionFailingProvider
    (.providerError (some "disconnect failed") none)
    (by decide) (by decide) (Or.inr rfl) rfl rfl

/-- Claim C3 (code bug, evaluated at the failing input): with a connected
adapter and a provider whose `signAndSubmit()` resolves to
`{ success: false }`, the catch block evaluates `error.error.message` on
its own `Error('No response')`, which has no `error` property, so the
handler itself throws a `TypeError`: no `error` event is emitted at all
(the `WalletSignAndSubmitMessageError` never gets constructed), the call
rejects with the `TypeError` instead of the original error, and the
connection record is unchanged. -/
theorem signAndSubmit_successFalse_eval :
    (signAndSubmitTransaction stConnected (some submitRejectingProvider) "payload").result =
      .error (.typeError "Cannot read properties of undefined (reading 'message')") ∧
    (signAndSubmitTransaction stConnected (some submitRejectingProvider) "payload").events =
      [] ∧
    (signAndSubmitTransaction stConnected (some submitRejectingProvider) "payload").state =
      stConnected :=
  ⟨rfl, rfl, rfl⟩

/-- Claim C5: every `disconnect()` call ends with `connected = false`,
emits exactly one `disconnect` event, and always resolves; with no
record no provider call is made; and a provider disconnect failure is
reported via an `error` event carrying the `WalletDisconnectionError`
and is not re-raised. -/
theorem disconnect_contract (s : AdapterState) (p : Option IPontemWallet) :
    connected (disconnect s p).state = false ∧
    countDisconnectEvents (disconnect s p).events = 1 ∧
    (disconnect s p).result = .ok () ∧
    (s._wallet = none → (disconnect s p).calls = []) ∧
    (∀ pr e, p = some pr → pr.disconnectR = .error e → s._wallet ≠ none →
      (disconnect s p).events =
        [.errorE (.disconnectionFailed e.messageOf), .disconnectE]) := by
  refine ⟨?_, ?_, ?_, ?_, ?_⟩
  · unfold connected
    rw [disconnect_wallet]
  · unfold disconnect
    split
    · rfl
    · split
      · rfl
      · split <;> rfl
  · unfold disconnect
    split
    · rfl
    · split
      · rfl
      · split <;> rfl
  · intro h
    simp [disconnect, h]
  · intro pr e hp he hw
    subst hp
    rcases hww : s._wallet with _ | w
    · exact absurd hww hw
    · simp [disconnect, hww, he]

/-- Witness for C5: disconnecting a connected adapter whose provider
disconnect rejects. -/
theorem disconnect_contract_witness :
    connected (disconnect stConnected (some disconnectFailingProvider)).state = false ∧
    countDisconnectEvents (disconnect stConnected (some disconnectFailingProvider)).events = 1 ∧
    (disconnect stConnected (some disconnectFailingProvider)).result = .ok () ∧
    (disconnect stConnected (some disconnectFailingProvider)).events =
      [.errorE (.disconnectionFailed (some "boom")), .disconnectE] := by
  refine ⟨(disconnect_contract stConnected (some disconnectFailingProvider)).1,
    (disconnect_contract stConnected (some disconnectFailingProvider)).2.1,
    (disconnect_contract stConnected (some disconnectFailingProvider)).2.2.1,
    ?_⟩
  exact (disconnect_contract stConnected (some disconnectFailingProvider)).2.2.2.2
    disconnectFailingProvider (.providerError (some "boom") none) rfl rfl (by decide)

/-- Claim C7: when `provider.connect()` resolves to a truthy response but
the subsequent `account()` fetch yields nothing (undefined or the empty
string), `connect()` still resolves successfully, emits `connect` with
the empty string as address, and leaves the connection record absent, so
`connected` stays `false`. -/
theorem connect_emptyAccount (s : AdapterState) (pr : IPontemWallet)
    (resp : ConnectPontemAccount) (wa pk : Option String)
    (h0 : s._wallet = none) (h2 : s._connecting = false)
    (h3 : s._readyState = .Loadable ∨ s._readyState = .Installed)
    (h4 : pr.isConnectedR = .ok false)
    (h5 : pr.connectR = .ok (some resp))
    (h6 : pr.accountR = .ok wa) (hwa : strTruthy wa = false)
    (h7 : pr.publicKeyR = .ok pk) :
    (connect s (some pr)).result = .ok () ∧
    (connect s (some pr)).events = [.connectE ""] ∧
    (connect s (some pr)).state._wallet = none ∧
    connected (connect s (some pr)).state = false := by
  have h1 : connected s = false := by simp [connected, h0]
  have hc : (connected s || s._connecting) = false := by simp [h1, h2]
  unfold connect
  rw [hc]
  simp only [Bool.false_eq_true, if_false]
  rw [if_pos h3]
  simp [connectWithProvider, h4, connectAfterSession, h5, h6, h7,
    connectFinish, hwa, h0, connected]

/-- Witness for C7: `account()` resolves to `undefined` after a
successful `connect()` response. -/
theorem connect_emptyAccount_witness :
    (connect stInstalled (some emptyAccountProvider)).result = .ok () ∧
    (connect stInstalled (some emptyAccountProvider)).events = [.connectE ""] ∧
    (connect stInstalled (some emptyAccountProvider)).state._wallet = none ∧
    connected (connect stInstalled (some emptyAccountProvider)).state = false :=
  connect_emptyAccount stInstalled emptyAccountProvider okResponse none (some "0xB")
    rfl rfl (Or.inr rfl) rfl rfl rfl rfl rfl

/-- Claim C8: `signTransaction` with no connection record or no provider
rejects with `WalletNotConnectedError`, invokes no provider operation,
and leaves the state untouched (it also emits the wrapping
`WalletSignTransactionError` `error` event from the catch block). -/
theorem signTransaction_notConnected (s : AdapterState)
    (p : Option IPontemWallet) (payload : String)
    (h : s._wallet = none ∨ p = none) :
    (signTransaction s p payload).result = .error (.walletNotConnected none) ∧
    (signTransaction s p payload).calls = [] ∧
    (signTransaction s p payload).state = s := by
  rcases h with h | h
  · simp [signTransaction, h]
  · rcases hw : s._wallet with _ | w
    · simp [signTransaction, hw]
    · simp [signTransaction, hw, h]

/-- Witness for C8: signing with no prior connect. -/
theorem signTransaction_notConnected_witness :
    (signTransaction stInstalled (some baseProvider) "tx").result =
      .error (.walletNotConnected none) ∧
    (signTransaction stInstalled (some baseProvider) "tx").calls = [] ∧
    (signTransaction stInstalled (some baseProvider) "tx").state = stInstalled :=
  signTransaction_notConnected stInstalled (some baseProvider) "tx" (Or.inl rfl)

/-- Claim C9: on a connected adapter, `signMessage` resolves to the
provider's nested `hexString` when the provider reports success, and on
`{ success: false }` rejects with the generic
`Error('Sign Message failed')` while emitting an `error` event carrying
the `WalletSignMessageError` kind. -/
theorem signMessage_contract (s : AdapterState) (pr : IPontemWallet)
    (m hx : String) (hc : connected s = true) :
    (pr.signMessageR m = .ok { success := true, hexString := hx } →
      (signMessage s (some pr) m).result = .ok hx) ∧
    (∀ r, pr.signMessageR m = .ok { success := false, hexString := r } →
      (signMessage s (some pr) m).result = .error (.genericError "Sign Message failed") ∧
      (signMessage s (some pr) m).events =
        [.errorE (.signMessageFailed (some "Sign Message failed"))]) := by
  rcases hw : s._wallet with _ | w
  · exfalso
    rw [connected, hw] at hc
    exact Bool.noConfusion hc
  · constructor
    · intro hr
      simp [signMessage, hw, hr]
    · intro r hr
      simp [signMessage, hw, hr]

/-- Witness for C9: `signMessage("hello")` resolving to `"0xdead"`, and
the `{ success: false }` rejection. -/
theorem signMessage_contract_witness :
    (signMessage stConnected (some baseProvider) "hello").result = .ok "0xdead" ∧
    (signMessage stConnected (some signMessageRejectingProvider) "hello").result =
      .error (.genericError "Sign Message failed") ∧
    (signMessage stConnected (some signMessageRejectingProvider) "hello").events =
      [.errorE (.signMessageFailed (some "Sign Message failed"))] := by
  refine ⟨(signMessage_contract stConnected baseProvider "hello" "0xdead" (by decide)).1 rfl,
    ?_, ?_⟩
  · exact ((signMessage_contract stConnected signMessageRejectingProvider "hello" "0xdead"
      (by decide)).2 "" rfl).1
  · exact ((signMessage_contract stConnected signMessageRejectingProvider "hello" "0xdead"
      (by decide)).2 "" rfl).2

/-- Claim C10: in every reachable state the `publicAccount` accessor is
total: with no record it returns all-`null` `AccountKeys`, and the
`authKey` field is `null` in every reachable state because `connect`
never populates it. -/
theorem publicAccount_nulls (s : AdapterState) (h : Reachable s) :
    (s._wallet = none →
      publicAccount s = { publicKey := none, address := none, authKey := none }) ∧
    (publicAccount s).authKey = none := by
  have hw := reachable_wellFormed s h
  constructor
  · intro hn
    simp [publicAccount, hn, jsStringOrNull]
  · rcases hww : s._wallet with _ | w
    · simp [publicAccount, hww, jsStringOrNull]
    · simp [publicAccount, hww, jsStringOrNull, (hw w hww).2]

/-- Witness for C10 at a concrete reachable state (a successful connect
from a fresh detected state). -/
theorem publicAccount_nulls_witness :
    publicAccount (initialState true) =
      { publicKey := none, address := none, authKey := none } ∧
    (publicAccount (connect stInstalled (some baseProvider)).state).authKey = none := by
  constructor
  · exact (publicAccount_nulls (initialState true) (Reachable.init true)).1 rfl
  · exact (publicAccount_nulls (connect stInstalled (some baseProvider)).state
      (Reachable.connectStep (some baseProvider)
        (by
          have h1 : Reachable (initialState true) := Reachable.init true
          have h2 := Reachable.detect h1
          have : ({ initialState true with _readyState := .Installed } : AdapterState) =
              stInstalled := by decide
          rw [this] at h2
          exact h2))).2

end PontemWallet
